import Mathlib

/-!
Verification of the ChronoMover core: a shallow embedding of the
calendar-period engine (src/date.rs), the move-decision logic and the
destination-path calculator (src/file.rs, src/model.rs), together with
proofs of the specified properties.

The Rust code obtains calendar data from the chrono crate
(`year()`, `month()`, `iso_week()` on a `DateTime<Utc>`).  We model a
`DateTime<Utc>` by its civil (proleptic Gregorian) components plus the
second of the day; chrono's instant order coincides with the lexicographic
order on (year, month, day, secondOfDay) for valid civil datetimes, and
that is how the order is defined here.  The ISO-8601 week computation
(`iso_week()`) is modelled by the standard ordinal/weekday formulas.
-/

/-! ### Calendar model (the chrono collaborator) -/

/-- Proleptic Gregorian leap-year rule, as used by chrono. -/
def isLeapYear (y : Int) : Bool := (y % 4 == 0 && y % 100 != 0) || (y % 400 == 0)

/-- Length of a civil month, parameterised by the leap flag of the year. -/
def daysInMonthOfLeap (leap : Bool) (m : Nat) : Nat :=
  match m with
  | 1 => 31
  | 2 => if leap then 29 else 28
  | 3 => 31 | 4 => 30 | 5 => 31 | 6 => 30 | 7 => 31 | 8 => 31
  | 9 => 30 | 10 => 31 | 11 => 30 | 12 => 31
  | _ => 0

/-- Length of month `m` of year `y`. -/
def daysInMonth (y : Int) (m : Nat) : Nat := daysInMonthOfLeap (isLeapYear y) m

/-- Days of the year strictly before month `m` (0 for January). -/
def monthOffsetOfLeap (leap : Bool) : Nat → Nat
  | 0 => 0
  | m + 1 => monthOffsetOfLeap leap m + daysInMonthOfLeap leap m

/-- A civil UTC datetime: the shallow embedding of chrono `DateTime<Utc>`. -/
structure DateTime where
  year : Int
  month : Nat
  day : Nat
  secondOfDay : Nat
  deriving DecidableEq, Repr

/-- A `DateTime` that denotes a real instant: month, day and second in range. -/
def DateTime.Valid (t : DateTime) : Prop :=
  1 ≤ t.month ∧ t.month ≤ 12 ∧ 1 ≤ t.day ∧ t.day ≤ daysInMonth t.year t.month ∧
    t.secondOfDay < 86400

instance (t : DateTime) : Decidable t.Valid := by
  unfold DateTime.Valid; infer_instance

/-- Lexicographic key of a datetime; for valid datetimes the lexicographic
order on (year, month, day, secondOfDay) is exactly chrono's instant order. -/
def DateTime.key (t : DateTime) : Int ×ₗ (Nat ×ₗ (Nat ×ₗ Nat)) :=
  toLex (t.year, toLex (t.month, toLex (t.day, t.secondOfDay)))

theorem DateTime.key_injective : Function.Injective DateTime.key := by
  intro a b h
  cases a; cases b
  simp only [DateTime.key, toLex_inj, Prod.mk.injEq] at h
  simp_all

instance : LinearOrder DateTime := LinearOrder.lift' DateTime.key DateTime.key_injective

theorem DateTime.le_iff {a b : DateTime} :
    a ≤ b ↔ a.year < b.year ∨ (a.year = b.year ∧ (a.month < b.month ∨ (a.month = b.month ∧
      (a.day < b.day ∨ (a.day = b.day ∧ a.secondOfDay ≤ b.secondOfDay))))) := by
  show DateTime.key a ≤ DateTime.key b ↔ _
  simp [DateTime.key, Prod.Lex.le_iff]

/-- Ordinal day of the year (1 for January 1st). -/
def ordinalDay (t : DateTime) : Nat :=
  monthOffsetOfLeap (isLeapYear t.year) t.month + t.day

/-- Number of days in a civil year. -/
def daysInYear (y : Int) : Nat := if isLeapYear y then 366 else 365

/-- Day count of January 1st of year `y` measured from the proleptic origin
(365 days per year plus one per leap year before `y`; divisors positive, so
`Int` division is floor division here). -/
def jan1DayNumber (y : Int) : Int :=
  365 * y + (y - 1) / 4 - (y - 1) / 100 + (y - 1) / 400

/-- Weekday of January 1st of year `y`, 0 = Monday .. 6 = Sunday. -/
def jan1Weekday (y : Int) : Int := (jan1DayNumber y + 6) % 7

/-- Number of ISO weeks (52 or 53) in the ISO week-year `y`: 53 exactly when
January 1st falls on Thursday, or on Wednesday in a leap year. -/
def isoWeeksInYear (y : Int) : Nat :=
  if jan1Weekday y = 3 ∨ (isLeapYear y = true ∧ jan1Weekday y = 2) then 53 else 52

/-- ISO weekday of a datetime, 1 = Monday .. 7 = Sunday. -/
def isoWeekday (t : DateTime) : Int :=
  (jan1Weekday t.year + (ordinalDay t : Int) - 1) % 7 + 1

/-- Raw ISO week index before the year-boundary adjustment. -/
def isoWeekRaw (t : DateTime) : Int :=
  ((ordinalDay t : Int) - isoWeekday t + 10) / 7

/-- ISO-8601 week of a datetime as the pair (ISO week-year, week number):
the model of chrono's `iso_week()`. -/
def iso_week (t : DateTime) : Int × Nat :=
  let w := isoWeekRaw t
  if w < 1 then (t.year - 1, isoWeeksInYear (t.year - 1))
  else if w > (isoWeeksInYear t.year : Int) then (t.year + 1, 1)
  else (t.year, w.toNat)

/-! ### src/date.rs: period arithmetic, identifiers and comparisons -/

/-- Rust tuple comparison `(i32, u32) < (i32, u32)` is lexicographic. -/
def identLt (a b : Int × Nat) : Bool :=
  decide (a.1 < b.1) || (decide (a.1 = b.1) && decide (a.2 < b.2))

/-- Current week identifier (ISO week-year, ISO week number). -/
def get_current_week (now : DateTime) : Int × Nat := iso_week now

/-- Current month identifier (calendar year, month). -/
def get_current_month (now : DateTime) : Int × Nat := (now.year, now.month)

/-- Current calendar year. -/
def get_current_year (now : DateTime) : Int := now.year

/-- Semester number (1 or 2) from month; arithmetic after the debug assertion. -/
def calculate_semester (month : Nat) : Nat := if month ≤ 6 then 1 else 2

/-- Trimester number (1-4) from month; arithmetic after the debug assertion. -/
def calculate_trimester (month : Nat) : Nat := (month - 1) / 3 + 1

/-- Quadrimester number (1-3) from month; arithmetic after the debug assertion. -/
def calculate_quadrimester (month : Nat) : Nat := (month - 1) / 4 + 1

/-- Biweekly number from ISO week; weeks 51-53 all map to 26; arithmetic after
the debug assertion. -/
def calculate_biweekly (isoWk : Nat) : Nat :=
  if 51 ≤ isoWk then 26 else (isoWk - 1) / 2 + 1

/-- Current semester identifier. -/
def get_current_semester (now : DateTime) : Int × Nat :=
  (now.year, calculate_semester now.month)

/-- Current trimester identifier. -/
def get_current_trimester (now : DateTime) : Int × Nat :=
  (now.year, calculate_trimester now.month)

/-- Current quadrimester identifier. -/
def get_current_quadrimester (now : DateTime) : Int × Nat :=
  (now.year, calculate_quadrimester now.month)

/-- Current biweekly identifier. -/
def get_current_biweekly (now : DateTime) : Int × Nat :=
  ((iso_week now).1, calculate_biweekly (iso_week now).2)

/-- Check if a date is before the current week. -/
def is_before_current_week (date now : DateTime) : Bool :=
  identLt ((iso_week date).1, (iso_week date).2) (get_current_week now)

/-- Check if a date is before the current month. -/
def is_before_current_month (date now : DateTime) : Bool :=
  identLt (date.year, date.month) (get_current_month now)

/-- Check if a date is before the current year. -/
def is_before_current_year (date now : DateTime) : Bool :=
  decide (date.year < get_current_year now)

/-- Check if a date is before the current semester. -/
def is_before_current_semester (date now : DateTime) : Bool :=
  identLt (date.year, calculate_semester date.month) (get_current_semester now)

/-- Check if a date is before the current trimester. -/
def is_before_current_trimester (date now : DateTime) : Bool :=
  identLt (date.year, calculate_trimester date.month) (get_current_trimester now)

/-- Check if a date is before the current quadrimester. -/
def is_before_current_quadrimester (date now : DateTime) : Bool :=
  identLt (date.year, calculate_quadrimester date.month) (get_current_quadrimester now)

/-- Check if a date is before the current biweekly period. -/
def is_before_current_biweekly (date now : DateTime) : Bool :=
  identLt ((iso_week date).1, calculate_biweekly (iso_week date).2)
    (get_current_biweekly now)

/-- Zero-padding to two digits, the model of the Rust format spec `{:02}`
for values that are at most two digits wide. -/
def pad2 (n : Nat) : String := if n < 10 then "0" ++ toString n else toString n

/-- Week identifier string, e.g. "2025-W49". -/
def get_week_identifier (date : DateTime) : String :=
  toString (iso_week date).1 ++ "-W" ++ pad2 (iso_week date).2

/-- Month identifier string, e.g. "2025-11". -/
def get_month_identifier (date : DateTime) : String :=
  toString date.year ++ "-" ++ pad2 date.month

/-- Year identifier string, e.g. "2025". -/
def get_year_identifier (date : DateTime) : String := toString date.year

/-- Semester identifier string, e.g. "2025-H1". -/
def get_semester_identifier (date : DateTime) : String :=
  toString date.year ++ "-H" ++ toString (calculate_semester date.month)

/-- Trimester identifier string, e.g. "2025-Q1". -/
def get_trimester_identifier (date : DateTime) : String :=
  toString date.year ++ "-Q" ++ toString (calculate_trimester date.month)

/-- Quadrimester identifier string, e.g. "2025-QD1". -/
def get_quadrimester_identifier (date : DateTime) : String :=
  toString date.year ++ "-QD" ++ toString (calculate_quadrimester date.month)

/-- Biweekly identifier string, e.g. "2025-BW01". -/
def get_biweekly_identifier (date : DateTime) : String :=
  toString (iso_week date).1 ++ "-BW" ++ pad2 (calculate_biweekly (iso_week date).2)

/-- Condition of the `validate_month` debug assertion. -/
def validate_month (month : Nat) : Bool := decide (1 ≤ month) && decide (month ≤ 12)

/-- Condition of the debug assertion guarding `calculate_biweekly`. -/
def validate_iso_week (isoWk : Nat) : Bool := decide (0 < isoWk) && decide (isoWk ≤ 53)

/-- Model of `calculate_semester` including its `debug_assert` contract check:
`none` models the assertion panic of a debug build. -/
def calculate_semester_checked (month : Nat) : Option Nat :=
  if validate_month month then some (calculate_semester month) else none

/-- Model of `calculate_trimester` including its `debug_assert` contract check. -/
def calculate_trimester_checked (month : Nat) : Option Nat :=
  if validate_month month then some (calculate_trimester month) else none

/-- Model of `calculate_quadrimester` including its `debug_assert` contract check. -/
def calculate_quadrimester_checked (month : Nat) : Option Nat :=
  if validate_month month then some (calculate_quadrimester month) else none

/-- Model of `calculate_biweekly` including its `debug_assert` contract check. -/
def calculate_biweekly_checked (isoWk : Nat) : Option Nat :=
  if validate_iso_week isoWk then some (calculate_biweekly isoWk) else none

/-! ### src/model.rs: configuration enums -/

/-- Which file timestamps are consulted (src/model.rs `FileDateType`). -/
inductive FileDateType
  | created
  | modified
  | accessed
  deriving DecidableEq, Repr

/-- Grouping granularity (src/model.rs `GroupBy`). -/
inductive GroupBy
  | week
  | biweekly
  | month
  | trimester
  | quadrimester
  | semester
  | year
  deriving DecidableEq, Repr

/-- The three raw timestamps of a file, as returned by the external
filesystem-metadata collaborator. -/
structure FileTimestamps where
  created : DateTime
  modified : DateTime
  accessed : DateTime
  deriving DecidableEq, Repr

/-- Timestamp selected by one file date type (the closure mapped over
`date_types` inside src/date.rs `get_file_date`). -/
def timestamp_of_type (ts : FileTimestamps) (t : FileDateType) : DateTime :=
  match t with
  | .created => ts.created
  | .modified => ts.modified
  | .accessed => ts.accessed

/-- Most recent timestamp among the selected file date types
(src/date.rs `get_file_date` after the metadata fetch); `none` models the
`context` error on an empty selection. -/
def get_file_date (ts : FileTimestamps) (date_types : List FileDateType) : Option DateTime :=
  (date_types.map (timestamp_of_type ts)).max?

/-! ### src/file.rs: move decision, destination paths and the move plan -/

/-- A filesystem path as its list of components; Rust `FsPath` operations used by
the core (`strip_prefix`, `starts_with`, `join` with single-component names)
act on components. -/
abbrev FsPath := List String

/-- Model of Rust `FsPath::strip_prefix` on components: removes `base` from the
front of `p` when `base` is a component prefix, otherwise fails. -/
def stripRoot : FsPath → FsPath → Option FsPath
  | p, [] => some p
  | [], _ :: _ => none
  | a :: p, b :: base => if a = b then stripRoot p base else none

/-- Model of Rust `FsPath::starts_with` on components. -/
def startsWithPath (p base : FsPath) : Bool := (stripRoot p base).isSome

/-- Per-granularity dispatch of the `is_before_current_*` family, as in the
`match` inside `should_move_file`. -/
def is_before_current (g : GroupBy) (date now : DateTime) : Bool :=
  match g with
  | .week => is_before_current_week date now
  | .month => is_before_current_month date now
  | .year => is_before_current_year date now
  | .semester => is_before_current_semester date now
  | .trimester => is_before_current_trimester date now
  | .quadrimester => is_before_current_quadrimester date now
  | .biweekly => is_before_current_biweekly date now

/-- Per-granularity dispatch of the `get_*_identifier` family, as in the
`match` computing `group_folder` inside `get_files_to_move`. -/
def group_identifier (g : GroupBy) (date : DateTime) : String :=
  match g with
  | .week => get_week_identifier date
  | .month => get_month_identifier date
  | .year => get_year_identifier date
  | .semester => get_semester_identifier date
  | .trimester => get_trimester_identifier date
  | .quadrimester => get_quadrimester_identifier date
  | .biweekly => get_biweekly_identifier date

/-- Determine if a file should be moved based on filters (src/file.rs
`should_move_file`): the `older_than` cutoff excludes `file_datetime >= cutoff`;
`previous_period_only` together with a configured granularity excludes files
not strictly before the current period; otherwise the file moves. -/
def should_move_file (file_datetime : DateTime) (group_by : Option GroupBy)
    (previous_period_only : Bool) (older_than : Option DateTime)
    (now : DateTime) : Bool :=
  if (match older_than with
      | some cutoff => decide (file_datetime ≥ cutoff)
      | none => false) then false
  else if previous_period_only &&
      (match group_by with
        | some group => !is_before_current group file_datetime now
        | none => false) then false
  else true

/-- Calculate destination path for a file (src/file.rs `calculate_dest_path`):
the path relative to the source root, re-rooted under the destination root,
with the group folder inserted directly under the destination root when
present; `none` models the "Failed to compute relative path" error. -/
def calculate_dest_path (source_path source_root dest_root : FsPath)
    (group_folder : Option String) : Option FsPath :=
  match stripRoot source_path source_root with
  | none => none
  | some relative_path =>
    match group_folder with
    | some group => some (dest_root ++ group :: relative_path)
    | none => some (dest_root ++ relative_path)

/-- The configuration fields of src/model.rs `Args` consumed by the
move-plan builder (argument parsing itself is an external collaborator). -/
structure Args where
  source : FsPath
  destination : FsPath
  group_by : Option GroupBy
  previous_period_only : Bool
  older_than : Option DateTime
  file_date_types : List FileDateType
  ignored_paths : Option (List FsPath)

/-- A planned move (src/file.rs `FileToMove`). -/
structure FileToMove where
  source : FsPath
  destination : FsPath
  deriving DecidableEq, Repr

/-- Loop body of `get_files_to_move` for one traversed file path:
skip when inside an ignored path; resolve the effective date (the external
metadata fetch composed with `get_file_date`), skipping on failure; apply
`should_move_file`; compute the group folder and destination, skipping when
the destination cannot be computed. -/
def process_entry (args : Args) (metadata : FsPath → Option FileTimestamps)
    (now : DateTime) (path : FsPath) : Option FileToMove :=
  if (match args.ignored_paths with
      | some ignored => ignored.any fun ignored_path => startsWithPath path ignored_path
      | none => false) then none
  else
    match (metadata path).bind fun ts => get_file_date ts args.file_date_types with
    | none => none
    | some file_datetime =>
      if should_move_file file_datetime args.group_by args.previous_period_only
          args.older_than now then
        match calculate_dest_path path args.source args.destination
            (args.group_by.map fun g => group_identifier g file_datetime) with
        | some dest_path => some ⟨path, dest_path⟩
        | none => none
      else none

/-- The move-plan builder (src/file.rs `get_files_to_move`): the traversal
results (file entries, in traversal order) are supplied by the external
directory walker as `entries`; the plan collects the processed entries in
order. -/
def get_files_to_move (args : Args) (metadata : FsPath → Option FileTimestamps)
    (now : DateTime) (entries : List FsPath) : List FileToMove :=
  entries.filterMap (process_entry args metadata now)

/-- Period identifier of a timestamp for a granularity, as computed by the
`get_current_*` family of src/date.rs (applied there to `now`, and inlined in
the `is_before_current_*` family for the file date); the Year granularity
uses only the year, embedded with a constant second component. -/
def identify (g : GroupBy) (date : DateTime) : Int × Nat :=
  match g with
  | .week => iso_week date
  | .biweekly => ((iso_week date).1, calculate_biweekly (iso_week date).2)
  | .month => (date.year, date.month)
  | .trimester => (date.year, calculate_trimester date.month)
  | .quadrimester => (date.year, calculate_quadrimester date.month)
  | .semester => (date.year, calculate_semester date.month)
  | .year => (date.year, 0)

/-! ### Helper lemmas -/

theorem validate_month_true_iff (m : Nat) : validate_month m = true ↔ 1 ≤ m ∧ m ≤ 12 := by
  simp [validate_month]

theorem validate_iso_week_true_iff (w : Nat) :
    validate_iso_week w = true ↔ 0 < w ∧ w ≤ 53 := by
  simp [validate_iso_week]

/-! ### Claim theorems -/

/-- C1: for every granularity and all timestamps, `is_before_current` returns
true exactly when the period identifier of the timestamp is lexicographically
less than the period identifier of `now` for that granularity (ISO week-year
identifiers for Week and Biweekly, calendar-year identifiers otherwise);
consequently it is false on identical identifiers (same period) and on larger
ones (following periods), by irreflexivity and asymmetry of the
lexicographic order. -/
theorem is_before_current_iff_identify_lex_lt (g : GroupBy) (date now : DateTime) :
    is_before_current g date now = true ↔
      Prod.Lex (· < ·) (· < ·) (identify g date) (identify g now) := by
  have hlex : ∀ a b : Int × Nat, identLt a b = true ↔ Prod.Lex (· < ·) (· < ·) a b := by
    intro a b
    rw [Prod.lex_def]
    simp [identLt]
  cases g <;>
    (simp only [is_before_current, identify, is_before_current_week,
      is_before_current_month, is_before_current_year, is_before_current_semester,
      is_before_current_trimester, is_before_current_quadrimester,
      is_before_current_biweekly, get_current_week, get_current_month,
      get_current_year, get_current_semester, get_current_trimester,
      get_current_quadrimester, get_current_biweekly, hlex];
      try (rw [Prod.lex_def]; simp))

/-- C2: `should_move_file` returns false exactly when a cutoff is configured
and the effective date is at or past it, or previous-period-only is enabled
together with a configured granularity and the date is not strictly before
the current period; in particular a date exactly at the cutoff is excluded,
and previous-period-only with no granularity never excludes. -/
theorem should_move_file_false_iff (file_datetime : DateTime)
    (group_by : Option GroupBy) (previous_period_only : Bool)
    (older_than : Option DateTime) (now : DateTime) :
    should_move_file file_datetime group_by previous_period_only older_than now = false ↔
      ((∃ cutoff, older_than = some cutoff ∧ cutoff ≤ file_datetime) ∨
        (previous_period_only = true ∧
          ∃ g, group_by = some g ∧ is_before_current g file_datetime now = false)) := by
  rcases older_than with _ | cutoff
  · rcases group_by with _ | g
    · cases previous_period_only <;> simp [should_move_file]
    · cases previous_period_only <;>
        by_cases h : is_before_current g file_datetime now <;>
        simp [should_move_file, h]
  · rcases group_by with _ | g
    · cases previous_period_only <;>
        by_cases hc : cutoff ≤ file_datetime <;>
        simp [should_move_file, hc, ge_iff_le]
    · cases previous_period_only <;>
        by_cases hc : cutoff ≤ file_datetime <;>
        by_cases h : is_before_current g file_datetime now <;>
        simp [should_move_file, hc, h, ge_iff_le]

/-- C4: on months 1-12 the period arithmetic produces semester 1 for the
first six months and 2 otherwise, trimester `(m-1)/3+1` in 1..4 and
quadrimester `(m-1)/4+1` in 1..3; on ISO weeks 1-50 the biweekly bucket is
`(w-1)/2+1`, and weeks 51, 52, 53 all collapse to bucket 26. -/
theorem period_arithmetic_spec :
    (∀ m : Nat, 1 ≤ m → m ≤ 12 →
        calculate_semester m = (if m ≤ 6 then 1 else 2) ∧
        1 ≤ calculate_semester m ∧ calculate_semester m ≤ 2 ∧
        calculate_trimester m = (m - 1) / 3 + 1 ∧
        1 ≤ calculate_trimester m ∧ calculate_trimester m ≤ 4 ∧
        calculate_quadrimester m = (m - 1) / 4 + 1 ∧
        1 ≤ calculate_quadrimester m ∧ calculate_quadrimester m ≤ 3) ∧
      (∀ w : Nat, 1 ≤ w → w ≤ 50 → calculate_biweekly w = (w - 1) / 2 + 1) ∧
      (calculate_biweekly 51 = 26 ∧ calculate_biweekly 52 = 26 ∧ calculate_biweekly 53 = 26) := by
  refine ⟨?_, ?_, by decide⟩
  · intro m h1 h2
    interval_cases m <;> decide
  · intro w h1 h2
    interval_cases w <;> decide

/-- Witness for C4 at month 7 and ISO week 10. -/
theorem period_arithmetic_spec_witness :
    (calculate_semester 7 = (if 7 ≤ 6 then 1 else 2) ∧
        1 ≤ calculate_semester 7 ∧ calculate_semester 7 ≤ 2 ∧
        calculate_trimester 7 = (7 - 1) / 3 + 1 ∧
        1 ≤ calculate_trimester 7 ∧ calculate_trimester 7 ≤ 4 ∧
        calculate_quadrimester 7 = (7 - 1) / 4 + 1 ∧
        1 ≤ calculate_quadrimester 7 ∧ calculate_quadrimester 7 ≤ 3) ∧
      calculate_biweekly 10 = (10 - 1) / 2 + 1 :=
  ⟨period_arithmetic_spec.1 7 (by decide) (by decide),
    period_arithmetic_spec.2.1 10 (by decide) (by decide)⟩

/-- C8: the contract checks of the period arithmetic fire (modelled as `none`,
the debug-build assertion panic) exactly on months outside 1-12 and ISO weeks
outside 1-53, and in-range inputs return the computed value normally. -/
theorem period_contract_spec :
    (∀ m : Nat, ¬(1 ≤ m ∧ m ≤ 12) →
        calculate_semester_checked m = none ∧
          calculate_trimester_checked m = none ∧
          calculate_quadrimester_checked m = none) ∧
      (∀ m : Nat, 1 ≤ m → m ≤ 12 →
        calculate_semester_checked m = some (calculate_semester m) ∧
          calculate_trimester_checked m = some (calculate_trimester m) ∧
          calculate_quadrimester_checked m = some (calculate_quadrimester m)) ∧
      (∀ w : Nat, ¬(1 ≤ w ∧ w ≤ 53) → calculate_biweekly_checked w = none) ∧
      (∀ w : Nat, 1 ≤ w → w ≤ 53 →
        calculate_biweekly_checked w = some (calculate_biweekly w)) := by
  refine ⟨fun m h => ?_, fun m h1 h2 => ?_, fun w h => ?_, fun w h1 h2 => ?_⟩
  · have hv : validate_month m = false := by
      rw [← Bool.not_eq_true, validate_month_true_iff]; exact h
    simp [calculate_semester_checked, calculate_trimester_checked,
      calculate_quadrimester_checked, hv]
  · have hv : validate_month m = true := (validate_month_true_iff m).2 ⟨h1, h2⟩
    simp [calculate_semester_checked, calculate_trimester_checked,
      calculate_quadrimester_checked, hv]
  · have hv : validate_iso_week w = false := by
      rw [← Bool.not_eq_true, validate_iso_week_true_iff]; omega
    simp [calculate_biweekly_checked, hv]
  · have hv : validate_iso_week w = true := (validate_iso_week_true_iff w).2 (by omega)
    simp [calculate_biweekly_checked, hv]

/-- Witness for C8 at the boundary inputs 0, 13, 5 (months) and 0, 54, 10
(ISO weeks). -/
theorem period_contract_spec_witness :
    (calculate_semester_checked 13 = none ∧ calculate_trimester_checked 13 = none ∧
        calculate_quadrimester_checked 13 = none) ∧
      (calculate_semester_checked 5 = some (calculate_semester 5) ∧
        calculate_trimester_checked 5 = some (calculate_trimester 5) ∧
        calculate_quadrimester_checked 5 = some (calculate_quadrimester 5)) ∧
      calculate_biweekly_checked 54 = none ∧
      calculate_biweekly_checked 10 = some (calculate_biweekly 10) :=
  ⟨period_contract_spec.1 13 (by decide),
    period_contract_spec.2.1 5 (by decide) (by decide),
    period_contract_spec.2.2.1 54 (by decide),
    period_contract_spec.2.2.2 10 (by decide) (by decide)⟩

/-- C5: the resolved effective date of a file is the maximum timestamp among
exactly the requested timestamp kinds, and an empty request set fails with a
configuration error (`none`) instead of returning a timestamp. -/
theorem get_file_date_spec (ts : FileTimestamps) (date_types : List FileDateType) :
    (date_types = [] → get_file_date ts date_types = none) ∧
      (date_types ≠ [] → ∃ d : DateTime,
        get_file_date ts date_types = some d ∧
          d ∈ date_types.map (timestamp_of_type ts) ∧
          ∀ x ∈ date_types.map (timestamp_of_type ts), x ≤ d) := by
  have hgd : get_file_date ts date_types = (date_types.map (timestamp_of_type ts)).max? := rfl
  constructor
  · rintro rfl; rfl
  · intro hne
    have hmapne : date_types.map (timestamp_of_type ts) ≠ [] := by simpa using hne
    obtain ⟨d, hd⟩ : ∃ d, (date_types.map (timestamp_of_type ts)).max? = some d := by
      rw [← Option.ne_none_iff_exists']
      simpa [List.max?_eq_none_iff] using hmapne
    refine ⟨d, by rw [hgd, hd], List.max?_mem (fun a b => max_choice a b) hd, fun x hx => ?_⟩
    exact (List.max?_le_iff (fun _ _ _ => max_le_iff) hd).1 le_rfl x hx

/-- Witness for C5: an empty request set fails; the request {created, modified}
resolves to the modified timestamp, the maximum of the selected kinds. -/
theorem get_file_date_spec_witness :
    (get_file_date ⟨⟨2025, 1, 1, 0⟩, ⟨2025, 2, 1, 0⟩, ⟨2024, 1, 1, 0⟩⟩ [] = none) ∧
      ∃ d : DateTime,
        get_file_date ⟨⟨2025, 1, 1, 0⟩, ⟨2025, 2, 1, 0⟩, ⟨2024, 1, 1, 0⟩⟩
            [.created, .modified] = some d ∧
          d ∈ [FileDateType.created, .modified].map
            (timestamp_of_type ⟨⟨2025, 1, 1, 0⟩, ⟨2025, 2, 1, 0⟩, ⟨2024, 1, 1, 0⟩⟩) ∧
          ∀ x ∈ [FileDateType.created, .modified].map
            (timestamp_of_type ⟨⟨2025, 1, 1, 0⟩, ⟨2025, 2, 1, 0⟩, ⟨2024, 1, 1, 0⟩⟩), x ≤ d :=
  ⟨(get_file_date_spec ⟨⟨2025, 1, 1, 0⟩, ⟨2025, 2, 1, 0⟩, ⟨2024, 1, 1, 0⟩⟩ []).1 rfl,
    (get_file_date_spec ⟨⟨2025, 1, 1, 0⟩, ⟨2025, 2, 1, 0⟩, ⟨2024, 1, 1, 0⟩⟩
      [.created, .modified]).2 (by decide)⟩

/-- C6: each granularity renders the canonical identifier string, zero-padded
on the 1-2 digit component, with the ISO week-year as year component for Week
and Biweekly and the calendar year for the others; and the two ISO year
rollover examples compute as specified. -/
theorem identifier_display_spec :
    (∀ t : DateTime,
        get_week_identifier t = toString (iso_week t).1 ++ "-W" ++
          (if (iso_week t).2 < 10 then "0" ++ toString (iso_week t).2
            else toString (iso_week t).2) ∧
        get_biweekly_identifier t = toString (iso_week t).1 ++ "-BW" ++
          (if calculate_biweekly (iso_week t).2 < 10 then
            "0" ++ toString (calculate_biweekly (iso_week t).2)
            else toString (calculate_biweekly (iso_week t).2)) ∧
        get_month_identifier t = toString t.year ++ "-" ++
          (if t.month < 10 then "0" ++ toString t.month else toString t.month) ∧
        get_semester_identifier t =
          toString t.year ++ "-H" ++ toString (calculate_semester t.month) ∧
        get_trimester_identifier t =
          toString t.year ++ "-Q" ++ toString (calculate_trimester t.month) ∧
        get_quadrimester_identifier t =
          toString t.year ++ "-QD" ++ toString (calculate_quadrimester t.month) ∧
        get_year_identifier t = toString t.year) ∧
      get_week_identifier ⟨2025, 1, 6, 0⟩ = "2025-W02" ∧
      get_week_identifier ⟨2025, 12, 29, 0⟩ = "2026-W01" :=
  ⟨fun _ => ⟨rfl, rfl, rfl, rfl, rfl, rfl, rfl⟩, by decide, by decide⟩

/-! ### Destination path lemmas -/

theorem stripRoot_append (root rel : FsPath) : stripRoot (root ++ rel) root = some rel := by
  induction root with
  | nil => simp [stripRoot]
  | cons b base ih => simpa [stripRoot] using ih

theorem stripRoot_eq_some_iff {p root rel : FsPath} :
    stripRoot p root = some rel ↔ p = root ++ rel := by
  constructor
  · intro h
    induction root generalizing p with
    | nil => simpa [stripRoot] using h
    | cons b base ih =>
      cases p with
      | nil => simp [stripRoot] at h
      | cons a p' =>
        by_cases hab : a = b
        · subst hab
          simp only [stripRoot, if_pos rfl] at h
          simpa using ih h
        · simp [stripRoot, hab] at h
  · rintro rfl
    exact stripRoot_append root rel

theorem stripRoot_eq_none_iff {p root : FsPath} :
    stripRoot p root = none ↔ ¬ root <+: p := by
  constructor
  · rintro h ⟨t, ht⟩
    rw [stripRoot_eq_some_iff.2 ht.symm] at h
    cases h
  · intro h
    cases hs : stripRoot p root with
    | none => rfl
    | some rel => exact absurd ⟨rel, (stripRoot_eq_some_iff.1 hs).symm⟩ h

/-- C3: when the source path is the source root extended by a relative part,
the destination is that relative part re-rooted under the destination root,
with the group folder inserted as exactly one extra segment directly under
the destination root when present; a source path not under the source root
fails. -/
theorem calculate_dest_path_spec (source_root dest_root : FsPath)
    (group_folder : Option String) :
    (∀ rel : FsPath,
        calculate_dest_path (source_root ++ rel) source_root dest_root group_folder =
          some (match group_folder with
            | some group => dest_root ++ group :: rel
            | none => dest_root ++ rel)) ∧
      (∀ source_path : FsPath, ¬ source_root <+: source_path →
        calculate_dest_path source_path source_root dest_root group_folder = none) := by
  constructor
  · intro rel
    cases group_folder <;> simp [calculate_dest_path, stripRoot_append]
  · intro sp h
    simp [calculate_dest_path, stripRoot_eq_none_iff.2 h]

/-- Witness for C3: a grouped nested file lands under dest/group/relative,
and a path outside the source root fails. -/
theorem calculate_dest_path_spec_witness :
    calculate_dest_path ["src", "a", "note.md"] ["src"] ["dest"] (some "2025-05") =
        some ["dest", "2025-05", "a", "note.md"] ∧
      calculate_dest_path ["other", "x"] ["src"] ["dest"] (some "2025-05") = none :=
  ⟨(calculate_dest_path_spec ["src"] ["dest"] (some "2025-05")).1 ["a", "note.md"],
    (calculate_dest_path_spec ["src"] ["dest"] (some "2025-05")).2 ["other", "x"]
      (by decide)⟩

/-! ### Move-plan lemmas -/

theorem process_entry_shape (args : Args) (metadata : FsPath → Option FileTimestamps)
    (now : DateTime) (path : FsPath) (e : FileToMove)
    (h : process_entry args metadata now path = some e) :
    e.source = path ∧
      ∃ rel, path = args.source ++ rel ∧
        ((args.group_by = none ∧ e.destination = args.destination ++ rel) ∨
          (∃ gf, args.group_by ≠ none ∧
            e.destination = args.destination ++ gf :: rel)) := by
  unfold process_entry at h
  split at h
  · exact absurd h (by simp)
  split at h
  · exact absurd h (by simp)
  split at h
  case isFalse => exact absurd h (by simp)
  rename_i file_datetime hfd hmove
  split at h
  case h_2 => exact absurd h (by simp)
  rename_i dest_path hdest
  obtain rfl : FileToMove.mk path dest_path = e := Option.some.inj h
  unfold calculate_dest_path at hdest
  split at hdest
  · exact absurd hdest (by simp)
  rename_i rel hstrip
  refine ⟨rfl, rel, stripRoot_eq_some_iff.1 hstrip, ?_⟩
  cases hgb : args.group_by with
  | none =>
    rw [hgb] at hdest
    simp only [Option.map_none'] at hdest
    exact Or.inl ⟨rfl, (Option.some.inj hdest).symm⟩
  | some g =>
    rw [hgb] at hdest
    simp only [Option.map_some'] at hdest
    exact Or.inr ⟨group_identifier g file_datetime, by simp [hgb],
      (Option.some.inj hdest).symm⟩

theorem process_entry_dest_injective (args : Args)
    (metadata : FsPath → Option FileTimestamps) (now : DateTime)
    {p1 p2 : FsPath} {e1 e2 : FileToMove}
    (h1 : process_entry args metadata now p1 = some e1)
    (h2 : process_entry args metadata now p2 = some e2)
    (hd : e1.destination = e2.destination) : p1 = p2 := by
  obtain ⟨-, rel1, hp1, hc1⟩ := process_entry_shape args metadata now p1 e1 h1
  obtain ⟨-, rel2, hp2, hc2⟩ := process_entry_shape args metadata now p2 e2 h2
  subst hp1 hp2
  rcases hc1 with ⟨hg1, hd1⟩ | ⟨gf1, hg1, hd1⟩ <;>
    rcases hc2 with ⟨hg2, hd2⟩ | ⟨gf2, hg2, hd2⟩
  · rw [hd1, hd2] at hd
    rw [List.append_cancel_left hd]
  · exact absurd hg1 hg2
  · exact absurd hg2 hg1
  · rw [hd1, hd2] at hd
    have h' := List.append_cancel_left hd
    rw [(List.cons.injEq _ _ _ _ ▸ h' : gf1 = gf2 ∧ rel1 = rel2).2]

/-- C7: for every traversal sequence of distinct file paths and every
configuration, the move plan is collision-free: no two distinct plan entries
share a destination path. -/
theorem move_plan_collision_free (args : Args)
    (metadata : FsPath → Option FileTimestamps) (now : DateTime)
    (entries : List FsPath) (hnd : entries.Nodup) :
    (get_files_to_move args metadata now entries).Pairwise
      (fun a b => a.destination ≠ b.destination) := by
  unfold get_files_to_move
  refine List.Pairwise.filterMap _ (fun p1 p2 hne e1 he1 e2 he2 => ?_) hnd
  simp only [Option.mem_def] at he1 he2
  exact fun hdd => hne (process_entry_dest_injective args metadata now he1 he2 hdd)

/-- Witness for C7: two distinct files dated in the previous month, grouped by
month, produce a two-entry plan with pairwise distinct destinations. -/
theorem move_plan_collision_free_witness :
    ([["src", "a.md"], ["src", "b.md"]] : List FsPath).Nodup ∧
      (get_files_to_move
          ⟨["src"], ["dest"], some .month, true, none, [.modified], none⟩
          (fun _ => some ⟨⟨2025, 5, 1, 0⟩, ⟨2025, 5, 1, 0⟩, ⟨2025, 5, 1, 0⟩⟩)
          ⟨2025, 6, 15, 0⟩
          [["src", "a.md"], ["src", "b.md"]]).Pairwise
        (fun a b => a.destination ≠ b.destination) :=
  ⟨by decide,
    move_plan_collision_free
      ⟨["src"], ["dest"], some .month, true, none, [.modified], none⟩
      (fun _ => some ⟨⟨2025, 5, 1, 0⟩, ⟨2025, 5, 1, 0⟩, ⟨2025, 5, 1, 0⟩⟩)
      ⟨2025, 6, 15, 0⟩
      [["src", "a.md"], ["src", "b.md"]] (by decide)⟩

theorem map_source_filterMap_sublist (f : FsPath → Option FileToMove)
    (hf : ∀ p e, f p = some e → e.source = p) (entries : List FsPath) :
    ((entries.filterMap f).map FileToMove.source).Sublist entries := by
  induction entries with
  | nil => simp
  | cons p l ih =>
    cases hfp : f p with
    | none =>
      rw [List.filterMap_cons_none hfp]
      exact ih.cons p
    | some e =>
      rw [List.filterMap_cons_some hfp, List.map_cons, hf p e hfp]
      exact ih.cons₂ p

/-- C9: the source paths of the move plan form an order-preserving
subsequence of the traversal sequence, and when the traversal yields distinct
paths each included file appears exactly once (the plan sources are distinct);
the core never reorders the plan. -/
theorem move_plan_order_spec (args : Args)
    (metadata : FsPath → Option FileTimestamps) (now : DateTime)
    (entries : List FsPath) :
    ((get_files_to_move args metadata now entries).map FileToMove.source).Sublist
        entries ∧
      (entries.Nodup →
        ((get_files_to_move args metadata now entries).map FileToMove.source).Nodup) := by
  have hsub := map_source_filterMap_sublist (process_entry args metadata now)
    (fun p e h => (process_entry_shape args metadata now p e h).1) entries
  exact ⟨hsub, fun hnd => hsub.nodup hnd⟩

/-- Witness for C9: with three traversed files of which the middle one is
excluded by the cutoff filter, the plan sources are the remaining two in
traversal order. -/
theorem move_plan_order_spec_witness :
    ((get_files_to_move
          ⟨["src"], ["dest"], none, false, some ⟨2025, 1, 1, 0⟩, [.modified], none⟩
          (fun p => if p = ["src", "b.md"] then
              some ⟨⟨2025, 3, 1, 0⟩, ⟨2025, 3, 1, 0⟩, ⟨2025, 3, 1, 0⟩⟩
            else some ⟨⟨2024, 3, 1, 0⟩, ⟨2024, 3, 1, 0⟩, ⟨2024, 3, 1, 0⟩⟩)
          ⟨2025, 6, 15, 0⟩
          [["src", "a.md"], ["src", "b.md"], ["src", "c.md"]]).map
        FileToMove.source).Sublist
        [["src", "a.md"], ["src", "b.md"], ["src", "c.md"]] ∧
      ((get_files_to_move
          ⟨["src"], ["dest"], none, false, some ⟨2025, 1, 1, 0⟩, [.modified], none⟩
          (fun p => if p = ["src", "b.md"] then
              some ⟨⟨2025, 3, 1, 0⟩, ⟨2025, 3, 1, 0⟩, ⟨2025, 3, 1, 0⟩⟩
            else some ⟨⟨2024, 3, 1, 0⟩, ⟨2024, 3, 1, 0⟩, ⟨2024, 3, 1, 0⟩⟩)
          ⟨2025, 6, 15, 0⟩
          [["src", "a.md"], ["src", "b.md"], ["src", "c.md"]]).map
        FileToMove.source).Nodup :=
  ⟨(move_plan_order_spec _ _ _ _).1,
    (move_plan_order_spec
      ⟨["src"], ["dest"], none, false, some ⟨2025, 1, 1, 0⟩, [.modified], none⟩
      (fun p => if p = ["src", "b.md"] then
          some ⟨⟨2025, 3, 1, 0⟩, ⟨2025, 3, 1, 0⟩, ⟨2025, 3, 1, 0⟩⟩
        else some ⟨⟨2024, 3, 1, 0⟩, ⟨2024, 3, 1, 0⟩, ⟨2024, 3, 1, 0⟩⟩)
      ⟨2025, 6, 15, 0⟩
      [["src", "a.md"], ["src", "b.md"], ["src", "c.md"]]).2 (by decide)⟩

/-! ### Monotonicity of period identifiers (towards C10) -/

theorem monthOffset_add_le (leap : Bool) :
    ∀ m2 < 13, ∀ m1 < m2,
      monthOffsetOfLeap leap m1 + daysInMonthOfLeap leap m1 ≤
        monthOffsetOfLeap leap m2 := by
  cases leap <;> decide

theorem monthOffset_year_end (leap : Bool) :
    ∀ m < 13, 1 ≤ m →
      monthOffsetOfLeap leap m + daysInMonthOfLeap leap m ≤
        (if leap then 366 else 365) := by
  cases leap <;> decide

theorem ordinalDay_mono {t1 t2 : DateTime} (h1 : t1.Valid) (h2 : t2.Valid)
    (hy : t1.year = t2.year)
    (hmd : t1.month < t2.month ∨ (t1.month = t2.month ∧ t1.day ≤ t2.day)) :
    ordinalDay t1 ≤ ordinalDay t2 := by
  obtain ⟨hm1, hm1b, hd1, hd1b, -⟩ := h1
  obtain ⟨hm2, hm2b, hd2, hd2b, -⟩ := h2
  unfold daysInMonth at hd1b hd2b
  unfold ordinalDay
  rw [hy] at hd1b ⊢
  rcases hmd with hlt | ⟨heq, hdle⟩
  · have hkey := monthOffset_add_le (isLeapYear t2.year) t2.month (by omega) t1.month hlt
    omega
  · rw [heq]
    omega

theorem ordinalDay_pos {t : DateTime} (h : t.Valid) : 1 ≤ ordinalDay t := by
  obtain ⟨-, -, hd, -, -⟩ := h
  unfold ordinalDay
  omega

theorem ordinalDay_le_daysInYear {t : DateTime} (h : t.Valid) :
    ordinalDay t ≤ daysInYear t.year := by
  obtain ⟨hm, hmb, hd, hdb, -⟩ := h
  unfold daysInMonth at hdb
  have hkey := monthOffset_year_end (isLeapYear t.year) t.month (by omega) hm
  unfold ordinalDay daysInYear
  cases hL : isLeapYear t.year <;> rw [hL] at hkey hdb <;> simp at hkey ⊢ <;> omega

theorem ordinalDay_dec31 (y : Int) (s : Nat) :
    ordinalDay ⟨y, 12, 31, s⟩ = daysInYear y := by
  show monthOffsetOfLeap (isLeapYear y) 12 + 31 = daysInYear y
  unfold daysInYear
  cases hL : isLeapYear y <;> decide

theorem ordinalDay_jan1 (y : Int) (s : Nat) : ordinalDay ⟨y, 1, 1, s⟩ = 1 := by
  show monthOffsetOfLeap (isLeapYear y) 1 + 1 = 1
  cases hL : isLeapYear y <;> decide

theorem daysInYear_ge (y : Int) : 365 ≤ daysInYear y := by
  unfold daysInYear
  split <;> omega

theorem jan1Weekday_bounds (y : Int) : 0 ≤ jan1Weekday y ∧ jan1Weekday y < 7 := by
  unfold jan1Weekday
  constructor
  · exact Int.emod_nonneg _ (by norm_num)
  · exact Int.emod_lt_of_pos _ (by norm_num)

theorem isLeapYear_iff (y : Int) :
    isLeapYear y = true ↔ ((y % 4 = 0 ∧ ¬ y % 100 = 0) ∨ y % 400 = 0) := by
  simp [isLeapYear]

theorem jan1DayNumber_succ (y : Int) :
    jan1DayNumber (y + 1) = jan1DayNumber y + (daysInYear y : Int) := by
  unfold jan1DayNumber daysInYear
  by_cases hL : isLeapYear y = true
  · rw [if_pos hL]
    rw [isLeapYear_iff] at hL
    push_cast
    omega
  · rw [if_neg hL]
    have hL' : ¬((y % 4 = 0 ∧ ¬ y % 100 = 0) ∨ y % 400 = 0) :=
      fun hc => hL ((isLeapYear_iff y).2 hc)
    push_cast
    omega

theorem jan1Weekday_succ (y : Int) :
    jan1Weekday (y + 1) = (jan1Weekday y + (daysInYear y : Int)) % 7 := by
  unfold jan1Weekday
  rw [jan1DayNumber_succ]
  omega

theorem isoWeeksInYear_ge (y : Int) : 52 ≤ isoWeeksInYear y := by
  unfold isoWeeksInYear
  split <;> omega

theorem isoWeeksInYear_le (y : Int) : isoWeeksInYear y ≤ 53 := by
  unfold isoWeeksInYear
  split <;> omega

theorem iso_week_mono_same_year {t1 t2 : DateTime} (hy : t1.year = t2.year)
    (ho1 : 1 ≤ ordinalDay t1) (ho : ordinalDay t1 ≤ ordinalDay t2) :
    toLex (iso_week t1) ≤ toLex (iso_week t2) := by
  obtain ⟨hj0, hj7⟩ := jan1Weekday_bounds t1.year
  have hlw := isoWeeksInYear_ge t1.year
  simp only [iso_week, isoWeekRaw, isoWeekday]
  rw [← hy]
  set j := jan1Weekday t1.year with hjdef
  set o1 := (ordinalDay t1 : Int) with ho1def
  set o2 := (ordinalDay t2 : Int) with ho2def
  have hoo : o1 ≤ o2 := by omega
  have ho1p : 1 ≤ o1 := by omega
  set w1 := (o1 - ((j + o1 - 1) % 7 + 1) + 10) / 7 with hw1def
  set w2 := (o2 - ((j + o2 - 1) % 7 + 1) + 10) / 7 with hw2def
  have hw12 : w1 ≤ w2 := by omega
  have hw1p : 0 ≤ w1 := by omega
  split_ifs with h1 h2 h3 h4 h5 h6 <;>
    rw [Prod.Lex.le_iff] <;> simp <;> omega

theorem iso_week_boundary (y : Int) :
    toLex (iso_week ⟨y, 12, 31, 0⟩) ≤ toLex (iso_week ⟨y + 1, 1, 1, 0⟩) := by
  obtain ⟨hj0, hj7⟩ := jan1Weekday_bounds y
  obtain ⟨hj0', hj7'⟩ := jan1Weekday_bounds (y + 1)
  have hrec := jan1Weekday_succ y
  have hlw1_ge := isoWeeksInYear_ge (y + 1)
  have hiso : (isoWeeksInYear y = 53 ∧
        (jan1Weekday y = 3 ∨ (isLeapYear y = true ∧ jan1Weekday y = 2))) ∨
      (isoWeeksInYear y = 52 ∧
        ¬(jan1Weekday y = 3 ∨ (isLeapYear y = true ∧ jan1Weekday y = 2))) := by
    unfold isoWeeksInYear
    split_ifs with hc
    · exact Or.inl ⟨rfl, hc⟩
    · exact Or.inr ⟨rfl, hc⟩
  have ho1 := ordinalDay_dec31 y 0
  have ho2 := ordinalDay_jan1 (y + 1) 0
  by_cases hL : isLeapYear y = true
  · have hD : daysInYear y = 366 := by unfold daysInYear; rw [if_pos hL]
    simp only [hL, true_and] at hiso
    simp only [iso_week, isoWeekRaw, isoWeekday, ho1, ho2, add_sub_cancel_right]
    split_ifs <;> rw [Prod.Lex.le_iff] <;> simp <;> omega
  · have hD : daysInYear y = 365 := by unfold daysInYear; rw [if_neg hL]
    simp only [hL, false_and, or_false] at hiso
    simp only [iso_week, isoWeekRaw, isoWeekday, ho1, ho2, add_sub_cancel_right]
    split_ifs <;> rw [Prod.Lex.le_iff] <;> simp <;> omega

theorem iso_week_jan1_mono (y1 y2 : Int) (h : y1 ≤ y2) :
    toLex (iso_week ⟨y1, 1, 1, 0⟩) ≤ toLex (iso_week ⟨y2, 1, 1, 0⟩) := by
  obtain ⟨k, rfl⟩ : ∃ k : Nat, y2 = y1 + k := ⟨(y2 - y1).toNat, by omega⟩
  clear h
  induction k with
  | zero => simp
  | succ n ih =>
    have hcast : (y1 + ((n : Nat) + 1 : Nat) : Int) = (y1 + (n : Nat)) + 1 := by
      push_cast
      ring
    rw [hcast]
    refine le_trans ih (le_trans ?_ (iso_week_boundary (y1 + (n : Nat))))
    refine iso_week_mono_same_year rfl ?_ ?_
    · rw [ordinalDay_jan1]
    · rw [ordinalDay_jan1, ordinalDay_dec31]
      have := daysInYear_ge (y1 + (n : Nat))
      omega

theorem iso_week_mono {t1 t2 : DateTime} (h1 : t1.Valid) (h2 : t2.Valid)
    (hle : t1 ≤ t2) : toLex (iso_week t1) ≤ toLex (iso_week t2) := by
  rcases DateTime.le_iff.1 hle with hy | ⟨hy, hmd⟩
  · have e1 : toLex (iso_week t1) ≤ toLex (iso_week ⟨t1.year, 12, 31, 0⟩) := by
      refine iso_week_mono_same_year rfl (ordinalDay_pos h1) ?_
      rw [ordinalDay_dec31]
      exact ordinalDay_le_daysInYear h1
    have e2 := iso_week_boundary t1.year
    have e3 := iso_week_jan1_mono (t1.year + 1) t2.year (by omega)
    have e4 : toLex (iso_week ⟨t2.year, 1, 1, 0⟩) ≤ toLex (iso_week t2) := by
      refine iso_week_mono_same_year rfl ?_ ?_
      · rw [ordinalDay_jan1]
      · rw [ordinalDay_jan1]
        exact ordinalDay_pos h2
    exact le_trans e1 (le_trans e2 (le_trans e3 e4))
  · apply iso_week_mono_same_year hy (ordinalDay_pos h1)
    apply ordinalDay_mono h1 h2 hy
    rcases hmd with h | ⟨hm, hd⟩
    · exact Or.inl h
    · refine Or.inr ⟨hm, ?_⟩
      rcases hd with h | ⟨h, -⟩ <;> omega

theorem calculate_semester_mono {m1 m2 : Nat} (h : m1 ≤ m2) :
    calculate_semester m1 ≤ calculate_semester m2 := by
  unfold calculate_semester
  split_ifs <;> omega

theorem calculate_trimester_mono {m1 m2 : Nat} (h : m1 ≤ m2) :
    calculate_trimester m1 ≤ calculate_trimester m2 := by
  unfold calculate_trimester
  omega

theorem calculate_quadrimester_mono {m1 m2 : Nat} (h : m1 ≤ m2) :
    calculate_quadrimester m1 ≤ calculate_quadrimester m2 := by
  unfold calculate_quadrimester
  omega

theorem calculate_biweekly_mono {w1 w2 : Nat} (h : w1 ≤ w2) :
    calculate_biweekly w1 ≤ calculate_biweekly w2 := by
  unfold calculate_biweekly
  split_ifs <;> omega

theorem identify_mono (g : GroupBy) {t1 t2 : DateTime} (h1 : t1.Valid)
    (h2 : t2.Valid) (hle : t1 ≤ t2) :
    toLex (identify g t1) ≤ toLex (identify g t2) := by
  have hyle : t1.year < t2.year ∨ (t1.year = t2.year ∧ t1.month ≤ t2.month) := by
    rcases DateTime.le_iff.1 hle with h | ⟨h, hm⟩
    · exact Or.inl h
    · refine Or.inr ⟨h, ?_⟩
      rcases hm with h' | ⟨h', -⟩ <;> omega
  cases g with
  | week => exact iso_week_mono h1 h2 hle
  | biweekly =>
    have hw := iso_week_mono h1 h2 hle
    rw [Prod.Lex.le_iff] at hw ⊢
    rcases hw with h | ⟨h, h'⟩
    · exact Or.inl h
    · exact Or.inr ⟨h, calculate_biweekly_mono h'⟩
  | month =>
    rw [Prod.Lex.le_iff]
    simp only [identify]
    rcases hyle with h | ⟨h, h'⟩
    · exact Or.inl h
    · exact Or.inr ⟨h, h'⟩
  | semester =>
    rw [Prod.Lex.le_iff]
    simp only [identify]
    rcases hyle with h | ⟨h, h'⟩
    · exact Or.inl h
    · exact Or.inr ⟨h, calculate_semester_mono h'⟩
  | trimester =>
    rw [Prod.Lex.le_iff]
    simp only [identify]
    rcases hyle with h | ⟨h, h'⟩
    · exact Or.inl h
    · exact Or.inr ⟨h, calculate_trimester_mono h'⟩
  | quadrimester =>
    rw [Prod.Lex.le_iff]
    simp only [identify]
    rcases hyle with h | ⟨h, h'⟩
    · exact Or.inl h
    · exact Or.inr ⟨h, calculate_quadrimester_mono h'⟩
  | year =>
    rw [Prod.Lex.le_iff]
    simp only [identify]
    rcases hyle with h | ⟨h, -⟩
    · exact Or.inl h
    · exact Or.inr ⟨h, le_refl 0⟩

theorem is_before_current_true_iff (g : GroupBy) (date now : DateTime) :
    is_before_current g date now = true ↔
      toLex (identify g date) < toLex (identify g now) := by
  have hlex : ∀ a b : Int × Nat, identLt a b = true ↔ toLex a < toLex b := by
    intro a b
    rw [Prod.Lex.lt_iff]
    simp [identLt]
  cases g <;>
    (simp only [is_before_current, identify, is_before_current_week,
      is_before_current_month, is_before_current_year, is_before_current_semester,
      is_before_current_trimester, is_before_current_quadrimester,
      is_before_current_biweekly, get_current_week, get_current_month,
      get_current_year, get_current_semester, get_current_trimester,
      get_current_quadrimester, get_current_biweekly, hlex];
      try (rw [Prod.Lex.lt_iff]; simp))

/-- C10: for every granularity and all valid timestamps t1 <= t2, if t2 is
before the current period of NOW then so is t1: the period identifier of each
granularity is monotone in the timestamp, including across ISO week-year
boundaries and through the collapsed biweekly bucket 26. -/
theorem is_before_current_antitone (g : GroupBy) (t1 t2 now : DateTime)
    (h1 : t1.Valid) (h2 : t2.Valid) (hle : t1 ≤ t2)
    (hb : is_before_current g t2 now = true) :
    is_before_current g t1 now = true := by
  rw [is_before_current_true_iff] at hb ⊢
  exact lt_of_le_of_lt (identify_mono g h1 h2 hle) hb

/-- Witness for C10 at the Week granularity across an ISO year boundary:
2024-12-25 (2024-W52) precedes 2025-06-08 (2025-W23), which is before the
week of 2025-06-15 (2025-W24). -/
theorem is_before_current_antitone_witness :
    DateTime.Valid ⟨2024, 12, 25, 0⟩ ∧ DateTime.Valid ⟨2025, 6, 8, 0⟩ ∧
      (⟨2024, 12, 25, 0⟩ : DateTime) ≤ ⟨2025, 6, 8, 0⟩ ∧
      is_before_current .week ⟨2025, 6, 8, 0⟩ ⟨2025, 6, 15, 0⟩ = true ∧
      is_before_current .week ⟨2024, 12, 25, 0⟩ ⟨2025, 6, 15, 0⟩ = true :=
  ⟨by decide, by decide, by decide, by decide,
    is_before_current_antitone .week ⟨2024, 12, 25, 0⟩ ⟨2025, 6, 8, 0⟩
      ⟨2025, 6, 15, 0⟩ (by decide) (by decide) (by decide) (by decide)⟩
